import Mathlib

/-
Verification development for the EKS cluster deployment scripts.

Shallow embedding of:
  - src/EksPythonClusterDeploy.py   (class EKSClusterSetup: validate_config,
    create_iam_role, create_eks_cluster, monitor_cluster_status, deploy)
  - src/Deploy_EKS_Cluster/deploy_eks_cluster.py (load_config,
    create_eks_cluster, configure_cloudwatch, scale_worker_nodes, main flow)

Remote AWS services (IAM, EKS, CloudWatch, AutoScaling) and the filesystem
are modelled as explicit stub inputs; the observable remote calls issued by
the workflow are collected in an event trace.  The possibly nonterminating
status polling loop is modelled with explicit fuel: an outcome of
"running n" means that after n polls the loop has not returned and is still
going, for that fuel bound.
-/

namespace EksDeploy

/-- Cluster lifecycle status values reported by describe_cluster. -/
inductive Status where
  | CREATING
  | ACTIVE
  | FAILED
  | DELETING
  | DELETED
  | UNKNOWN
deriving DecidableEq, Repr

/-- Kinds of Python exceptions that the scripts raise or catch. -/
inductive ExcKind where
  | ValueErr
  | FileNotFoundErr
  | JSONDecodeErr
  | ClientErr (code : String)
  | RuntimeErr
  | KeyErr
  | PermErr
deriving DecidableEq, Repr

/-- Result of one eks_client.describe_cluster call: either a reported
status, or a raised exception. -/
inductive PollStep where
  | ok (s : Status)
  | exc (e : ExcKind)
deriving DecidableEq, Repr

/-- Observable outcome of the monitor_cluster_status loop, under a fuel
bound: the loop broke out after observing ACTIVE, re-raised an exception
from describe_cluster, or is still running after the given number of
polls (fuel exhausted without the loop returning). -/
inductive MonitorOutcome where
  | active (polls : Nat)
  | raised (e : ExcKind) (polls : Nat)
  | running (polls : Nat)
deriving DecidableEq, Repr

/-- Number of describe_cluster calls issued before the observed outcome. -/
def MonitorOutcome.polls : MonitorOutcome → Nat
  | .active n => n
  | .raised _ n => n
  | .running n => n

/-- The body of EKSClusterSetup.monitor_cluster_status, lines 170-179:
`while True:` poll describe_cluster; print the status; break only when the
status equals ACTIVE.  `poll j` is the result of the (j+1)-th
describe_cluster call; `i` counts polls already issued. -/
def monitorFrom (poll : Nat → PollStep) : Nat → Nat → MonitorOutcome
  | 0, i => .running i
  | fuel + 1, i =>
    match poll i with
    | .exc e => .raised e (i + 1)
    | .ok s => if s = Status.ACTIVE then .active (i + 1) else monitorFrom poll fuel (i + 1)

/-- EKSClusterSetup.monitor_cluster_status, run from the first poll. -/
def monitor_cluster_status (fuel : Nat) (poll : Nat → PollStep) : MonitorOutcome :=
  monitorFrom poll fuel 0

/-- A poll result on which the source loop keeps going: a reported status
other than ACTIVE (an exception stops the loop by re-raising, ACTIVE stops
it by break). -/
def pollContinues : PollStep → Bool
  | .ok s => decide (s ≠ Status.ACTIVE)
  | .exc _ => false

/-- If every poll result keeps the loop going, the loop never returns:
with any fuel it is still running, having issued one poll per fuel unit. -/
theorem monitorFrom_running (poll : Nat → PollStep)
    (h : ∀ j, pollContinues (poll j) = true) :
    ∀ (fuel i : Nat), monitorFrom poll fuel i = MonitorOutcome.running (i + fuel) := by
  intro fuel
  induction fuel with
  | zero => intro i; simp [monitorFrom]
  | succ fuel ih =>
    intro i
    have hc := h i
    unfold monitorFrom
    cases hp : poll i with
    | exc e => rw [hp] at hc; simp [pollContinues] at hc
    | ok s =>
      rw [hp] at hc
      simp only [pollContinues, decide_eq_true_eq] at hc
      simp only [if_neg hc]
      rw [ih (i + 1)]
      congr 1
      omega

/-- The status sequence CREATING, CREATING, FAILED, FAILED, ... used by the
spec: the third and every later observation is the terminal FAILED. -/
def seqCCF : Nat → PollStep :=
  fun i => .ok (if i < 2 then Status.CREATING else Status.FAILED)

/-- C1: the claim says the poller imposes a bound of N attempts and, against
a provider that always reports CREATING, stops after the N-th poll with
TimeoutError.  The source loop (while True, break only on ACTIVE) does not:
for every fuel bound it is still running after exactly that many polls, so
it never stops, never raises TimeoutError, and in particular issues a 4th
poll after a deadline of 3. -/
theorem c1_monitor_unbounded :
    ∀ fuel : Nat,
      monitor_cluster_status fuel (fun _ => PollStep.ok Status.CREATING)
        = MonitorOutcome.running fuel := by
  intro fuel
  have h : ∀ j, pollContinues ((fun _ : Nat => PollStep.ok Status.CREATING) j) = true := by
    intro j; rfl
  simpa using monitorFrom_running _ h fuel 0

/-- C2: the claim says that on the sequence CREATING, CREATING, FAILED the
poller stops at the third observation with DeploymentFailed and issues no
further poll.  The source loop breaks only on ACTIVE, so on this sequence
it is still running after any number of polls: by fuel 4 it has already
issued a 4th poll after observing FAILED at the 3rd. -/
theorem c2_monitor_ignores_failed :
    seqCCF 2 = PollStep.ok Status.FAILED ∧
      ∀ fuel : Nat, monitor_cluster_status fuel seqCCF = MonitorOutcome.running fuel := by
  refine ⟨rfl, ?_⟩
  intro fuel
  have h : ∀ j, pollContinues (seqCCF j) = true := by
    intro j
    by_cases hj : j < 2 <;> simp [seqCCF, pollContinues, hj]
  simpa using monitorFrom_running _ h fuel 0

/-- A JSON-ish configuration value, with the truthiness structure Python
uses in the scripts: strings, integers, arrays of strings, and None. -/
inductive JVal where
  | str (s : String)
  | num (n : Int)
  | arr (l : List String)
  | null
deriving DecidableEq, Repr

/-- Python truthiness of a configuration value: empty string, zero, empty
list and None are falsy. -/
def truthy : JVal → Bool
  | .str s => !(s == "")
  | .num n => !(n == 0)
  | .arr l => !l.isEmpty
  | .null => false

/-- A JSON object (Python dict) as an association list of keys to values. -/
abbrev CfgMap := List (String × JVal)

/-- Python `k in config`. -/
def hasKey (m : CfgMap) (k : String) : Bool := m.any (fun p => p.1 == k)

/-- Python `config.get(k)`: the stored value, or None when absent. -/
def getVal (m : CfgMap) (k : String) : JVal :=
  match m.find? (fun p => p.1 == k) with
  | some p => p.2
  | none => .null

/-- Python `config[k] = v`: overwrite the existing binding or append. -/
def setKey (m : CfgMap) (k : String) (v : JVal) : CfgMap :=
  if hasKey m k then m.map (fun p => if p.1 == k then (k, v) else p)
  else m ++ [(k, v)]

/-- Result of opening and JSON-parsing the configuration file: missing
(FileNotFoundError), unreadable (PermissionError), malformed
(JSONDecodeError), or parsed content. -/
inductive FileRead where
  | missing
  | noPerm
  | badJson
  | content (cfg : CfgMap)
deriving DecidableEq, Repr

/-- Outcome of a method that either returns normally or raises. -/
inductive VResult where
  | ok
  | exc (e : ExcKind)
deriving DecidableEq, Repr

/-- The required keys checked by EKSClusterSetup.validate_config. -/
def class_required_keys : List String := ["vpcConfig", "nodeRoleArn", "subnets"]

/-- The flag set by EKSClusterSetup's constructor: self.validated = False. -/
def initValidated : Bool := false

/-- EKSClusterSetup.validate_config, lines 61-97: load the config file,
check the required keys, set self.validated = True when all are present;
every caught exception is re-raised, leaving the flag unchanged.  Takes
the file read result and the current flag, returns the outcome and the
new flag. -/
def validate_config (fr : FileRead) (validated : Bool) : VResult × Bool :=
  match fr with
  | .missing => (.exc .FileNotFoundErr, validated)
  | .noPerm => (.exc .PermErr, validated)
  | .badJson => (.exc .JSONDecodeErr, validated)
  | .content cfg =>
    if class_required_keys.all (fun k => hasKey cfg k)
    then (.ok, true)
    else (.exc .ValueErr, validated)

/-- Remote calls the EKSClusterSetup workflow can issue, in trace order. -/
inductive Event where
  | createRoleCall
  | createClusterCall
  | describeClusterCall
deriving DecidableEq, Repr

/-- Stubbed external environment of one EKSClusterSetup run: the config
file contents, the IAM create_role result, the EKS create_cluster result,
and the describe_cluster result for each poll index. -/
structure World where
  file : FileRead
  iamCreateRole : Except ExcKind String
  eksCreate : Except ExcKind Unit
  poll : Nat → PollStep

/-- Whether a stubbed remote call succeeded. -/
def okB {α : Type} : Except ExcKind α → Bool
  | .ok _ => true
  | .error _ => false

/-- EKSClusterSetup.create_iam_role, lines 99-130: issues iam.create_role;
a ClientError is printed and re-raised, success returns the role ARN. -/
def create_iam_role (w : World) : Except ExcKind String × List Event :=
  (w.iamCreateRole, [Event.createRoleCall])

/-- EKSClusterSetup.create_eks_cluster, lines 132-161: raise RuntimeError
when self.validated is False, before any remote call; otherwise evaluate
the create_cluster arguments in order (create_iam_role first, then
re-read the config file for its vpcConfig entry) and issue
eks.create_cluster; ClientError is printed and re-raised, other
exceptions propagate. -/
def create_eks_cluster (validated : Bool) (w : World) : VResult × List Event :=
  if validated then
    match (create_iam_role w).1 with
    | .error e => (.exc e, [Event.createRoleCall])
    | .ok _arn =>
      match w.file with
      | .missing => (.exc .FileNotFoundErr, [Event.createRoleCall])
      | .noPerm => (.exc .PermErr, [Event.createRoleCall])
      | .badJson => (.exc .JSONDecodeErr, [Event.createRoleCall])
      | .content cfg =>
        if hasKey cfg "vpcConfig" then
          match w.eksCreate with
          | .ok _ => (.ok, [Event.createRoleCall, Event.createClusterCall])
          | .error e => (.exc e, [Event.createRoleCall, Event.createClusterCall])
        else (.exc .KeyErr, [Event.createRoleCall])
  else (.exc .RuntimeErr, [])

/-- What EKSClusterSetup.deploy prints at the end of a run. -/
inductive DeployPrinted where
  | success
  | permissionMsg
  | failureMsg (e : ExcKind)
  | stillRunning
deriving DecidableEq, Repr

/-- Caller-observable outcome of EKSClusterSetup.deploy: the trace of
remote calls issued, what was printed, the exception propagated to the
caller (the method catches everything, so this is always none), and the
value returned to the caller (the method body has no return statement,
so Python returns None: always none). -/
structure DeployObs where
  trace : List Event
  printed : DeployPrinted
  raised : Option ExcKind
  retval : Option String
deriving DecidableEq, Repr

/-- The message deploy's except clauses print for a propagated exception:
PermissionError has its own clause, everything else is generic. -/
def printedFor : ExcKind → DeployPrinted
  | .PermErr => .permissionMsg
  | e => .failureMsg e

/-- EKSClusterSetup.deploy, lines 185-206: validate_config, then
create_eks_cluster (with the flag validate_config just set), then
monitor_cluster_status; all exceptions are caught and only printed, and
nothing is returned.  `fuel` bounds the observation of the polling
loop. -/
def deploy (fuel : Nat) (validated : Bool) (w : World) : DeployObs :=
  match validate_config w.file validated with
  | (.exc e, _) => { trace := [], printed := printedFor e, raised := none, retval := none }
  | (.ok, _) =>
    match create_eks_cluster true w with
    | (.exc e, t) => { trace := t, printed := printedFor e, raised := none, retval := none }
    | (.ok, t) =>
      match monitor_cluster_status fuel w.poll with
      | .active n =>
        { trace := t ++ List.replicate n Event.describeClusterCall,
          printed := .success, raised := none, retval := none }
      | .raised e n =>
        { trace := t ++ List.replicate n Event.describeClusterCall,
          printed := printedFor e, raised := none, retval := none }
      | .running n =>
        { trace := t ++ List.replicate n Event.describeClusterCall,
          printed := .stillRunning, raised := none, retval := none }

/-- Scans a trace and checks the stage order: a createClusterCall may only
appear once a createRoleCall has appeared, and a describeClusterCall only
once a createClusterCall has appeared.  The flags record which stages have
been seen so far. -/
def orderedFrom : Bool → Bool → List Event → Bool
  | _, _, [] => true
  | _, c, Event.createRoleCall :: es => orderedFrom true c es
  | r, _, Event.createClusterCall :: es => r && orderedFrom r true es
  | r, c, Event.describeClusterCall :: es => c && orderedFrom r c es

/-- A trace respects the stage order when the scan starting with no stage
seen succeeds. -/
def stageOrdered (tr : List Event) : Bool := orderedFrom false false tr

/-- Each stage's remote call appears in the trace only when the previous
stage completed successfully: role creation only after validation passed,
cluster creation only when role creation succeeded, polling only when both
role and cluster creation succeeded. -/
def stageGated (v : Bool) (w : World) (tr : List Event) : Bool :=
  (!(decide (Event.createRoleCall ∈ tr)) || decide ((validate_config w.file v).1 = VResult.ok)) &&
  (!(decide (Event.createClusterCall ∈ tr)) || okB w.iamCreateRole) &&
  (!(decide (Event.describeClusterCall ∈ tr)) || (okB w.iamCreateRole && okB w.eksCreate))

/-- A block of describe calls is ordered once a cluster call has been seen. -/
theorem orderedFrom_replicate (r : Bool) :
    ∀ n : Nat, orderedFrom r true (List.replicate n Event.describeClusterCall) = true := by
  intro n
  induction n with
  | zero => rfl
  | succ n ih => simp [List.replicate_succ, orderedFrom, ih]

/-- Shape of create_eks_cluster's trace when the flag is set: either role
creation alone was attempted (and the method raised), or the cluster call
was issued, in which case role creation had succeeded. -/
theorem create_true_shape (w : World) :
    (create_eks_cluster true w).2 = [Event.createRoleCall]
    ∨ ((create_eks_cluster true w).2 = [Event.createRoleCall, Event.createClusterCall]
        ∧ okB w.iamCreateRole = true) := by
  rcases w with ⟨file, iam, eks, poll⟩
  cases iam with
  | error e => left; simp [create_eks_cluster, create_iam_role]
  | ok arn =>
    cases file with
    | missing => left; simp [create_eks_cluster, create_iam_role]
    | noPerm => left; simp [create_eks_cluster, create_iam_role]
    | badJson => left; simp [create_eks_cluster, create_iam_role]
    | content cfg =>
      by_cases hv : hasKey cfg "vpcConfig"
      · right
        cases eks with
        | ok u => simp [create_eks_cluster, create_iam_role, hv, okB]
        | error e => simp [create_eks_cluster, create_iam_role, hv, okB]
      · left; simp [create_eks_cluster, create_iam_role, hv]

/-- When create_eks_cluster returns normally, its trace is exactly the role
call followed by the cluster call, and both stub services succeeded. -/
theorem create_true_ok (w : World) (h : (create_eks_cluster true w).1 = VResult.ok) :
    (create_eks_cluster true w).2 = [Event.createRoleCall, Event.createClusterCall]
      ∧ okB w.iamCreateRole = true ∧ okB w.eksCreate = true := by
  rcases w with ⟨file, iam, eks, poll⟩
  cases iam with
  | error e => simp [create_eks_cluster, create_iam_role] at h
  | ok arn =>
    cases file with
    | missing => simp [create_eks_cluster, create_iam_role] at h
    | noPerm => simp [create_eks_cluster, create_iam_role] at h
    | badJson => simp [create_eks_cluster, create_iam_role] at h
    | content cfg =>
      by_cases hv : hasKey cfg "vpcConfig"
      · cases eks with
        | ok u => simp [create_eks_cluster, create_iam_role, hv, okB]
        | error e => simp [create_eks_cluster, create_iam_role, hv] at h
      · simp [create_eks_cluster, create_iam_role, hv] at h

/-- When the IAM stub fails, create_eks_cluster re-raises that error after
the role call alone: the cluster call is never issued. -/
theorem create_iam_error (w : World) (e : ExcKind) (h : w.iamCreateRole = Except.error e) :
    create_eks_cluster true w = (VResult.exc e, [Event.createRoleCall]) := by
  simp [create_eks_cluster, create_iam_role, h]

/-- Every deploy trace is empty (validation raised), the create_eks_cluster
trace (which raised, validation having passed), or the role and cluster
calls followed by a block of polls (every stage succeeded). -/
theorem deploy_trace_shape (fuel : Nat) (v : Bool) (w : World) :
    (deploy fuel v w).trace = []
    ∨ ((deploy fuel v w).trace = (create_eks_cluster true w).2
        ∧ (validate_config w.file v).1 = VResult.ok)
    ∨ (∃ n : Nat,
        (deploy fuel v w).trace
            = [Event.createRoleCall, Event.createClusterCall]
              ++ List.replicate n Event.describeClusterCall
          ∧ (validate_config w.file v).1 = VResult.ok
          ∧ okB w.iamCreateRole = true ∧ okB w.eksCreate = true) := by
  rcases hval : validate_config w.file v with ⟨r, v2⟩
  cases r with
  | exc e => left; simp [deploy, hval]
  | ok =>
    rcases hc : create_eks_cluster true w with ⟨cr, t⟩
    cases cr with
    | exc e =>
      right; left
      constructor
      · simp [deploy, hval, hc]
      · rfl
    | ok =>
      right; right
      have hok := create_true_ok w (by rw [hc])
      rcases hok with ⟨ht, hiam, heks⟩
      have ht2 : t = [Event.createRoleCall, Event.createClusterCall] := by
        rw [hc] at ht; simpa using ht
      cases hm : monitor_cluster_status fuel w.poll with
      | active n =>
        exact ⟨n, by simp [deploy, hval, hc, hm, ht2], rfl, hiam, heks⟩
      | raised e n =>
        exact ⟨n, by simp [deploy, hval, hc, hm, ht2], rfl, hiam, heks⟩
      | running n =>
        exact ⟨n, by simp [deploy, hval, hc, hm, ht2], rfl, hiam, heks⟩

/-- When validation passes, the deploy trace begins with the role-creation
call: identity provisioning is always attempted first on a valid config. -/
theorem deploy_valid_starts_role (fuel : Nat) (v : Bool) (w : World)
    (hok : (validate_config w.file v).1 = VResult.ok) :
    ∃ rest, (deploy fuel v w).trace = Event.createRoleCall :: rest := by
  rcases hval : validate_config w.file v with ⟨r, v2⟩
  rw [hval] at hok
  cases r with
  | exc e => exact absurd hok (by simp)
  | ok =>
    rcases hc : create_eks_cluster true w with ⟨cr, t⟩
    have hts := create_true_shape w
    rw [hc] at hts
    simp only [Prod.snd] at hts
    cases cr with
    | exc e =>
      rcases hts with ht | ⟨ht, _⟩
      · exact ⟨[], by simp [deploy, hval, hc, ht]⟩
      · exact ⟨[Event.createClusterCall], by simp [deploy, hval, hc, ht]⟩
    | ok =>
      have hok2 := create_true_ok w (by rw [hc])
      rcases hok2 with ⟨ht, _, _⟩
      have ht2 : t = [Event.createRoleCall, Event.createClusterCall] := by
        rw [hc] at ht; simpa using ht
      cases hm : monitor_cluster_status fuel w.poll with
      | active n =>
        exact ⟨Event.createClusterCall :: List.replicate n Event.describeClusterCall,
          by simp [deploy, hval, hc, hm, ht2]⟩
      | raised e n =>
        exact ⟨Event.createClusterCall :: List.replicate n Event.describeClusterCall,
          by simp [deploy, hval, hc, hm, ht2]⟩
      | running n =>
        exact ⟨Event.createClusterCall :: List.replicate n Event.describeClusterCall,
          by simp [deploy, hval, hc, hm, ht2]⟩

/-- C6: in every run of EKSClusterSetup.deploy, for any stubbed services
and any fuel, the trace of remote calls respects the strict stage order
(no cluster creation before role creation, no poll before cluster
creation), each stage's call appears only when the previous stage
completed successfully, and on a config that validates the trace starts
with the role-creation call. -/
theorem c6_stage_order (fuel : Nat) (v : Bool) (w : World) :
    stageOrdered (deploy fuel v w).trace = true
      ∧ stageGated v w (deploy fuel v w).trace = true
      ∧ ((validate_config w.file v).1 = VResult.ok →
          ∃ rest, (deploy fuel v w).trace = Event.createRoleCall :: rest) := by
  have hmain : stageOrdered (deploy fuel v w).trace = true
      ∧ stageGated v w (deploy fuel v w).trace = true := by
    rcases deploy_trace_shape fuel v w with h | ⟨h, hv⟩ | ⟨n, h, hv, hiam, heks⟩
    · rw [h]
      exact ⟨rfl, by simp [stageGated]⟩
    · rcases create_true_shape w with hs | ⟨hs, hiam⟩
      · rw [h, hs]
        exact ⟨rfl, by simp [stageGated, hv]⟩
      · rw [h, hs]
        exact ⟨rfl, by simp [stageGated, hv, hiam]⟩
    · rw [h]
      constructor
      · simp only [stageOrdered, List.cons_append, List.nil_append, orderedFrom,
          Bool.true_and]
        exact orderedFrom_replicate true n
      · simp [stageGated, hv, hiam, heks]
  exact ⟨hmain.1, hmain.2, deploy_valid_starts_role fuel v w⟩

/-- C7: whenever the stubbed identity service fails role creation with any
error (in particular an AccessDenied ClientError), the deploy workflow
never issues the create_cluster remote call. -/
theorem c7_no_cluster_call_on_iam_error (fuel : Nat) (v : Bool) (w : World) (e : ExcKind)
    (h : w.iamCreateRole = Except.error e) :
    Event.createClusterCall ∉ (deploy fuel v w).trace := by
  rcases deploy_trace_shape fuel v w with ht | ⟨ht, _⟩ | ⟨n, ht, _, hiam, _⟩
  · rw [ht]; simp
  · rw [ht, create_iam_error w e h]; simp
  · rw [h] at hiam; simp [okB] at hiam

/-- A run whose identity service denies role creation, with an otherwise
valid configuration file. -/
def wPerm : World :=
  { file := .content
      [("vpcConfig", .arr ["subnet-1"]), ("nodeRoleArn", .str "arn-node"),
       ("subnets", .arr ["subnet-1"])]
  , iamCreateRole := .error (.ClientErr "AccessDenied")
  , eksCreate := .ok ()
  , poll := fun _ => .ok Status.CREATING }

/-- C7 witness: on the concrete permission-denied run, the cluster call is
absent from the trace. -/
theorem c7_witness :
    wPerm.iamCreateRole = Except.error (ExcKind.ClientErr "AccessDenied")
      ∧ Event.createClusterCall ∉ (deploy 3 false wPerm).trace :=
  ⟨rfl, c7_no_cluster_call_on_iam_error 3 false wPerm (ExcKind.ClientErr "AccessDenied") rfl⟩

/-- C10: the validated flag is false at construction; validate_config
leaves it true exactly when validation succeeded or it was already true;
and calling create_eks_cluster with the flag false raises RuntimeError
with an empty trace, so no remote call at all is issued. -/
theorem c10_validated_flag_guard :
    initValidated = false
    ∧ (∀ (fr : FileRead) (b : Bool),
        (validate_config fr b).2 = (decide ((validate_config fr b).1 = VResult.ok) || b))
    ∧ (∀ w : World, create_eks_cluster false w = (VResult.exc ExcKind.RuntimeErr, [])) := by
  refine ⟨rfl, ?_, ?_⟩
  · intro fr b
    cases fr with
    | missing => simp [validate_config]
    | noPerm => simp [validate_config]
    | badJson => simp [validate_config]
    | content cfg =>
      by_cases hk : class_required_keys.all (fun k => hasKey cfg k) <;>
        simp [validate_config, hk]
  · intro w
    simp [create_eks_cluster]

/-- A run whose configuration file is missing: validation raises
FileNotFoundError, the first stage fails. -/
def wMissingFile : World :=
  { file := .missing
  , iamCreateRole := .ok "arn-role"
  , eksCreate := .ok ()
  , poll := fun _ => .ok Status.CREATING }

/-- C3 counterexample: on a run whose validation stage fails, deploy hands
its caller neither a result value nor an exception — it returns None and
only prints a failure message, so no DeploymentResult.failure carrying the
stage and error kind is produced. -/
theorem c3_counterexample_only_printed :
    (deploy 3 false wMissingFile).retval = none
      ∧ (deploy 3 false wMissingFile).raised = none
      ∧ (deploy 3 false wMissingFile).printed
          = DeployPrinted.failureMsg ExcKind.FileNotFoundErr
      ∧ (validate_config wMissingFile.file false).1 = VResult.exc ExcKind.FileNotFoundErr :=
  ⟨rfl, rfl, rfl, rfl⟩

/-- In every run, deploy hands its caller the value None and no exception:
all branches of the method end in a record with retval and raised none. -/
theorem deploy_obs_none (fuel : Nat) (v : Bool) (w : World) :
    (deploy fuel v w).retval = none ∧ (deploy fuel v w).raised = none := by
  rcases hval : validate_config w.file v with ⟨r, v2⟩
  cases r with
  | exc e => simp [deploy, hval]
  | ok =>
    rcases hc : create_eks_cluster true w with ⟨cr, t⟩
    cases cr with
    | exc e => simp [deploy, hval, hc]
    | ok =>
      cases hm : monitor_cluster_status fuel w.poll <;> simp [deploy, hval, hc, hm]

/-- C3 amended: deploy always returns None to its caller and propagates no
exception, for every stubbed environment and fuel; failure is reported
only through printed messages. -/
theorem c3_amended_no_structured_result (fuel : Nat) (v : Bool) (w : World) :
    (deploy fuel v w).retval = none ∧ (deploy fuel v w).raised = none :=
  deploy_obs_none fuel v w

/-
Model of src/Deploy_EKS_Cluster/deploy_eks_cluster.py: load_config,
create_eks_cluster, configure_cloudwatch, scale_worker_nodes and the main
flow.  Sensitive values come from the process environment, modelled as an
association list of variable names to strings.
-/
namespace DeployModule

/-- The required configuration keys listed in load_config, lines 68-75. -/
def module_required_keys : List String :=
  ["cluster_name", "role_arn", "subnet_ids", "security_group_ids",
   "autoscaling_group_name", "desired_capacity"]

/-- The process environment as seen by os.getenv. -/
abbrev EnvMap := List (String × String)

/-- os.getenv with default None. -/
def getenv (env : EnvMap) (k : String) : Option String :=
  match env.find? (fun p => p.1 == k) with
  | some p => some p.2
  | none => none

/-- An environment variable as stored into the config dict: the string, or
None when unset. -/
def envVal (env : EnvMap) (k : String) : JVal :=
  match getenv env k with
  | some s => .str s
  | none => .null

/-- Outcome of load_config: the raised ValueError for an empty environment
name, or the returned config together with the warnings issued. -/
inductive LoadResult where
  | raisedValueError
  | ret (config : CfgMap) (warns : List String)
deriving DecidableEq, Repr

/-- The warnings a load_config run issued. -/
def LoadResult.warns : LoadResult → List String
  | .raisedValueError => []
  | .ret _ w => w

/-- Whether load_config raised. -/
def LoadResult.raised : LoadResult → Bool
  | .raisedValueError => true
  | .ret _ _ => false

/-- load_config, lines 17-96: raise ValueError when the environment name is
falsy; read the config file, every read failure only warns and leaves the
config empty; merge API_KEY and DB_PASSWORD from the environment; warn
(never raise) for each required key that is missing or falsy; warn when
the sensitive values are unset; return the config. -/
def load_config (environment : String) (fr : FileRead) (env : EnvMap) : LoadResult :=
  if environment == "" then .raisedValueError
  else
    let config : CfgMap :=
      match fr with
      | .content cfg => cfg
      | _ => []
    let fileWarns : List String :=
      match fr with
      | .content _ => []
      | .missing => ["Configuration file not found. Verify the file path."]
      | .noPerm => ["Insufficient permissions to read configuration file."]
      | .badJson => ["Error decoding JSON in configuration file."]
    let config := setKey config "api_key" (envVal env "API_KEY")
    let config := setKey config "db_password" (envVal env "DB_PASSWORD")
    let keyWarns := module_required_keys.filterMap (fun k =>
      if !(hasKey config k) || !(truthy (getVal config k))
      then some ("Missing or invalid required configuration key: " ++ k)
      else none)
    let apiWarns := if truthy (getVal config "api_key") then []
      else ["API_KEY environment variable is not set. This may cause issues."]
    let dbWarns := if truthy (getVal config "db_password") then []
      else ["DB_PASSWORD environment variable is not set. This may cause issues."]
    .ret config (fileWarns ++ keyWarns ++ apiWarns ++ dbWarns)

/-- Remote calls the module's main flow can issue; the scaling call records
the desired capacity handed to the AutoScaling service. -/
inductive MEvent where
  | eksCreateCall
  | cwPutAlarmCall
  | asgSetCapacityCall (cap : JVal)
deriving DecidableEq, Repr

/-- Caller-observable outcome of one module function: the API response was
returned, an exception was caught and an empty dict returned in its place,
a ValueError was raised by the parameter check, or None was returned. -/
inductive CallResult where
  | response
  | emptyDict
  | raisedValueError
  | noneRet
deriving DecidableEq, Repr

/-- create_eks_cluster, lines 99-139: raise ValueError when any of the four
parameters is falsy; otherwise issue the remote create_cluster call and
return its response, or catch any exception, log it, and return an empty
dict. -/
def create_eks_cluster (name roleArn subnets sgs : JVal) (svc : Except Unit Unit) :
    CallResult × List MEvent :=
  if truthy name && truthy roleArn && truthy subnets && truthy sgs then
    match svc with
    | .ok _ => (.response, [.eksCreateCall])
    | .error _ => (.emptyDict, [.eksCreateCall])
  else (.raisedValueError, [])

/-- configure_cloudwatch, lines 142-176: raise ValueError when the cluster
name or namespace is falsy; otherwise issue put_metric_alarm and return
None, catching and logging any exception. -/
def configure_cloudwatch (name ns : JVal) (svc : Except Unit Unit) :
    CallResult × List MEvent :=
  if truthy name && truthy ns then
    match svc with
    | .ok _ => (.noneRet, [.cwPutAlarmCall])
    | .error _ => (.noneRet, [.cwPutAlarmCall])
  else (.raisedValueError, [])

/-- scale_worker_nodes, lines 179-214: raise ValueError when the group name
is falsy or the desired capacity is None; otherwise issue
set_desired_capacity and return its response, or catch any exception, log
it, and return an empty dict.  A nonzero integer capacity, negative
included, passes the check. -/
def scale_worker_nodes (asg cap : JVal) (svc : Except Unit Unit) :
    CallResult × List MEvent :=
  if truthy asg = false ∨ cap = JVal.null then (.raisedValueError, [])
  else
    match svc with
    | .ok _ => (.response, [.asgSetCapacityCall cap])
    | .error _ => (.emptyDict, [.asgSetCapacityCall cap])

/-- The main flow, lines 218-252: load the config, abort when it is empty,
then create the cluster, configure CloudWatch, and scale the workers; a
raised ValueError from any step is caught by the outer handler and stops
the flow.  The result is the trace of remote calls issued. -/
def main_flow (environment : String) (fr : FileRead) (env : EnvMap)
    (eksSvc cwSvc asgSvc : Except Unit Unit) : List MEvent :=
  match load_config environment fr env with
  | .raisedValueError => []
  | .ret config _warns =>
    if config.isEmpty then []
    else
      let r1 := create_eks_cluster (getVal config "cluster_name")
        (getVal config "role_arn") (getVal config "subnet_ids")
        (getVal config "security_group_ids") eksSvc
      match r1.1 with
      | .raisedValueError => r1.2
      | _ =>
        let r2 := configure_cloudwatch (getVal config "cluster_name")
          (.str "AWS/EKS") cwSvc
        match r2.1 with
        | .raisedValueError => r1.2 ++ r2.2
        | _ =>
          let r3 := scale_worker_nodes (getVal config "autoscaling_group_name")
            (getVal config "desired_capacity") asgSvc
          r1.2 ++ r2.2 ++ r3.2

end DeployModule

/-- A configuration file for the module flow with every required key except
desired_capacity present and truthy. -/
def c4cfg : CfgMap :=
  [("cluster_name", .str "demo"), ("role_arn", .str "arn-role"),
   ("subnet_ids", .arr ["subnet-1"]), ("security_group_ids", .arr ["sg-1"]),
   ("autoscaling_group_name", .str "asg-demo")]

/-- An environment with both sensitive variables set. -/
def c4env : DeployModule.EnvMap := [("API_KEY", "key-1"), ("DB_PASSWORD", "pw-1")]

/-- The same configuration with a negative desired worker count. -/
def c9cfg : CfgMap := c4cfg ++ [("desired_capacity", .num (-3))]

/-- C4: on a configuration missing the required key desired_capacity,
load_config does not raise — it returns the config with only a warning —
and the main flow then issues the remote create_cluster call, so
validation neither fails with ConfigError nor prevents remote calls. -/
theorem c4_missing_key_only_warns :
    (DeployModule.load_config "dev" (FileRead.content c4cfg) c4env).raised = false
    ∧ "Missing or invalid required configuration key: desired_capacity"
        ∈ (DeployModule.load_config "dev" (FileRead.content c4cfg) c4env).warns
    ∧ DeployModule.MEvent.eksCreateCall
        ∈ DeployModule.main_flow "dev" (FileRead.content c4cfg) c4env
            (Except.ok ()) (Except.ok ()) (Except.ok ()) := by
  decide

/-- C5 counterexample: when the remote create_cluster call raises, the
module's create_eks_cluster catches the exception and returns an empty
dict in its place — the error is neither retried nor re-raised nor
returned as a structured failure. -/
theorem c5_counterexample_error_swallowed :
    DeployModule.create_eks_cluster (JVal.str "demo") (JVal.str "arn-role")
        (JVal.arr ["subnet-1"]) (JVal.arr ["sg-1"]) (Except.error ())
      = (DeployModule.CallResult.emptyDict, [DeployModule.MEvent.eksCreateCall]) := by
  decide

/-- C5 amended: the class methods re-raise (create_iam_role propagates the
identity service's error unchanged), but the module's create_eks_cluster
and scale_worker_nodes catch every exception from their remote call and
return an empty dict in its place, and EKSClusterSetup.deploy catches all
exceptions and only prints, propagating none to its caller. -/
theorem c5_amended_swallow_characterization :
    (∀ w : World, (create_iam_role w).1 = w.iamCreateRole)
    ∧ (∀ name roleArn subnets sgs : JVal,
        DeployModule.create_eks_cluster name roleArn subnets sgs (Except.error ())
          = (if truthy name && truthy roleArn && truthy subnets && truthy sgs
             then (DeployModule.CallResult.emptyDict, [DeployModule.MEvent.eksCreateCall])
             else (DeployModule.CallResult.raisedValueError, ([] : List DeployModule.MEvent))))
    ∧ (∀ asg cap : JVal,
        DeployModule.scale_worker_nodes asg cap (Except.error ())
          = (if truthy asg = false ∨ cap = JVal.null
             then (DeployModule.CallResult.raisedValueError, ([] : List DeployModule.MEvent))
             else (DeployModule.CallResult.emptyDict,
                   [DeployModule.MEvent.asgSetCapacityCall cap])))
    ∧ (∀ (fuel : Nat) (v : Bool) (w : World), (deploy fuel v w).raised = none) := by
  refine ⟨fun w => rfl, ?_, ?_, fun fuel v w => (deploy_obs_none fuel v w).2⟩
  · intro name roleArn subnets sgs
    by_cases h : (truthy name && truthy roleArn && truthy subnets && truthy sgs) = true <;>
      simp [DeployModule.create_eks_cluster, h]
  · intro asg cap
    by_cases h : (truthy asg = false ∨ cap = JVal.null) <;>
      simp [DeployModule.scale_worker_nodes, h]

/-- A minimal configuration file for the purity counterexample. -/
def c8cfg : CfgMap := [("cluster_name", .str "demo")]

/-- Two environments differing only in API_KEY. -/
def c8env1 : DeployModule.EnvMap := [("API_KEY", "key-a"), ("DB_PASSWORD", "pw")]

/-- See c8env1. -/
def c8env2 : DeployModule.EnvMap := [("API_KEY", "key-b"), ("DB_PASSWORD", "pw")]

/-- Two environments agreeing on API_KEY and DB_PASSWORD but not as lists. -/
def c8env3 : DeployModule.EnvMap := [("API_KEY", "key-a")]

/-- See c8env3. -/
def c8env4 : DeployModule.EnvMap := [("OTHER", "z"), ("API_KEY", "key-a")]

/-- C8 counterexample: with the same raw file input, two runs under
environments that differ only in API_KEY return different configs, so the
validator is not a pure function of its raw input with no dependence on
environment variables. -/
theorem c8_counterexample_env_dependent :
    DeployModule.load_config "dev" (FileRead.content c8cfg) c8env1
      ≠ DeployModule.load_config "dev" (FileRead.content c8cfg) c8env2 := by
  decide

/-- C8 amended: the validators are deterministic in their full inputs —
validate_config run a second time from the flag the first run left
behind gives the same outcome and flag, and load_config's result depends
on the environment only through API_KEY and DB_PASSWORD — but load_config
is not a function of the file input alone, since it merges those two
environment variables into the returned config. -/
theorem c8_amended_determinism :
    (∀ (fr : FileRead) (b : Bool),
        validate_config fr ((validate_config fr b).2) = validate_config fr b)
    ∧ (∀ (environment : String) (fr : FileRead) (env1 env2 : DeployModule.EnvMap),
        DeployModule.getenv env1 "API_KEY" = DeployModule.getenv env2 "API_KEY" →
        DeployModule.getenv env1 "DB_PASSWORD" = DeployModule.getenv env2 "DB_PASSWORD" →
        DeployModule.load_config environment fr env1
          = DeployModule.load_config environment fr env2) := by
  constructor
  · intro fr b
    cases fr with
    | missing => simp [validate_config]
    | noPerm => simp [validate_config]
    | badJson => simp [validate_config]
    | content cfg =>
      by_cases hk : class_required_keys.all (fun k => hasKey cfg k) <;>
        simp [validate_config, hk]
  · intro environment fr env1 env2 h1 h2
    simp only [DeployModule.load_config, DeployModule.envVal, h1, h2]

/-- C8 witness: the dependence restriction applied at concrete inputs —
two different environment lists that agree on the two sensitive variables
give identical load_config results. -/
theorem c8_witness_env_restriction :
    DeployModule.load_config "dev" (FileRead.content c8cfg) c8env3
      = DeployModule.load_config "dev" (FileRead.content c8cfg) c8env4 :=
  c8_amended_determinism.2 "dev" (FileRead.content c8cfg) c8env3 c8env4
    (by decide) (by decide)

/-- C9 counterexample: a configuration whose desired_capacity is -3 passes
load_config with no warning about that key, and the main flow hands -3 to
the remote scaling call — validation does not fail and a negative count
reaches scaling. -/
theorem c9_counterexample_negative_reaches_scaling :
    (DeployModule.load_config "dev" (FileRead.content c9cfg) c4env).raised = false
    ∧ "Missing or invalid required configuration key: desired_capacity"
        ∉ (DeployModule.load_config "dev" (FileRead.content c9cfg) c4env).warns
    ∧ DeployModule.MEvent.asgSetCapacityCall (JVal.num (-3))
        ∈ DeployModule.main_flow "dev" (FileRead.content c9cfg) c4env
            (Except.ok ()) (Except.ok ()) (Except.ok ()) := by
  decide

/-- C9 amended: no numeric range check exists — scale_worker_nodes raises
ValueError exactly when the group name is falsy or the capacity is None,
and every nonzero integer capacity, negative included, is passed on to
the remote scaling call. -/
theorem c9_amended_guard :
    (∀ (asg cap : JVal) (svc : Except Unit Unit),
        ((DeployModule.scale_worker_nodes asg cap svc).1
            = DeployModule.CallResult.raisedValueError
          ↔ (truthy asg = false ∨ cap = JVal.null)))
    ∧ (∀ (n : Int) (svc : Except Unit Unit),
        (DeployModule.scale_worker_nodes (JVal.str "asg-demo") (JVal.num n) svc).2
          = [DeployModule.MEvent.asgSetCapacityCall (JVal.num n)]) := by
  constructor
  · intro asg cap svc
    by_cases h : (truthy asg = false ∨ cap = JVal.null)
    · simp [DeployModule.scale_worker_nodes, h]
    · cases svc <;> simp [DeployModule.scale_worker_nodes, h]
  · intro n svc
    have ht : truthy (JVal.str "asg-demo") = true := by decide
    cases svc <;> simp [DeployModule.scale_worker_nodes, ht]

end EksDeploy



